import Mathlib

/-!
Shallow embedding of `src/descriptor_set/vk_objects.rs` (vulkano descriptor-set
update and lifetime-tracking engine) and proofs about it.

Native Vulkan handles (`vk::Buffer`, `vk::DescriptorSet`, ...) are modelled as
`Nat`. Pointers into the two kind-segregated payload arrays built by
`unchecked_write` are modelled as `Option Nat` indices (`none` = null pointer).
Native driver calls are recorded in a `NativeCall` trace. A Rust panic
(`assert!` / `assert_eq!`) is modelled by an aborting result (`ok = false`, or
`none` for constructors), carrying the state as mutated up to the point of the
panic. Driver outcomes of fallible native creation calls are supplied by an
explicit `Except OomError Nat` oracle argument.
-/

namespace Vulkano

/-- A device, identified by its native handle (stands in for the `Arc<Device>`
object identity compared by pointer in the source). -/
structure Device where
  handle : Nat
deriving DecidableEq

/-- A descriptor pool: its owning device and its native handle. -/
structure DescriptorPool where
  device : Device
  handle : Nat
deriving DecidableEq

/-- A sampler resource (external collaborator): native handle only. -/
structure Sampler where
  handle : Nat
deriving DecidableEq

/-- An image-view resource (external collaborator): native handle plus the
boolean usage-capability queries the engine consults. -/
structure AbstractImageView where
  handle : Nat
  usage_sampled : Bool
  usage_storage : Bool
  usage_input_attachment : Bool
deriving DecidableEq

/-- A buffer resource (external collaborator): native handle plus the boolean
usage-capability queries the engine consults. -/
structure AbstractBuffer where
  handle : Nat
  usage_uniform_buffer : Bool
  usage_storage_buffer : Bool
deriving DecidableEq

/-- `DescriptorBind`: a single resource-to-binding assignment, one variant per
binding kind (from `descriptor_set/layout_def.rs`, reconstructed from the
variants matched in `vk_objects.rs`). -/
inductive DescriptorBind where
  | UniformBuffer (buffer : AbstractBuffer) (offset : Nat) (size : Nat)
  | StorageBuffer (buffer : AbstractBuffer) (offset : Nat) (size : Nat)
  | DynamicUniformBuffer (buffer : AbstractBuffer) (offset : Nat) (size : Nat)
  | DynamicStorageBuffer (buffer : AbstractBuffer) (offset : Nat) (size : Nat)
  | Sampler (sampler : Vulkano.Sampler)
  | CombinedImageSampler (sampler : Vulkano.Sampler) (image : AbstractImageView) (layout : Nat)
  | SampledImage (image : AbstractImageView) (layout : Nat)
  | StorageImage (image : AbstractImageView) (layout : Nat)
  | InputAttachment (image : AbstractImageView) (layout : Nat)
deriving DecidableEq

/-- `DescriptorWrite`: {binding index, array element offset, one bind}. -/
structure DescriptorWrite where
  binding : Nat
  array_element : Nat
  content : DescriptorBind
deriving DecidableEq

/-- The nine descriptor kinds of the data model. -/
inductive DescriptorType where
  | Sampler
  | CombinedImageSampler
  | SampledImage
  | StorageImage
  | UniformBuffer
  | StorageBuffer
  | DynamicUniformBuffer
  | DynamicStorageBuffer
  | InputAttachment
deriving DecidableEq

/-- Modelled from the spec: the native enum value of a descriptor kind
(`DescriptorType::vk_enum()` lives in `descriptor_set/layout_def.rs`, which is
not under `src/`); the values are the standard Vulkan `VkDescriptorType`
constants, an injective numbering of the kinds. -/
def DescriptorType.vk_enum : DescriptorType → Nat
  | .Sampler => 0
  | .CombinedImageSampler => 1
  | .SampledImage => 2
  | .StorageImage => 3
  | .UniformBuffer => 6
  | .StorageBuffer => 7
  | .DynamicUniformBuffer => 8
  | .DynamicStorageBuffer => 9
  | .InputAttachment => 10

/-- Modelled from the spec: `DescriptorBind::ty()` lives in
`descriptor_set/layout_def.rs`, which is not under `src/`; per the spec the
descriptor-kind enum written into a native record "is the kind of that write's
DescriptorBind". -/
def DescriptorBind.ty : DescriptorBind → DescriptorType
  | .UniformBuffer _ _ _ => .UniformBuffer
  | .StorageBuffer _ _ _ => .StorageBuffer
  | .DynamicUniformBuffer _ _ _ => .DynamicUniformBuffer
  | .DynamicStorageBuffer _ _ _ => .DynamicStorageBuffer
  | .Sampler _ => .Sampler
  | .CombinedImageSampler _ _ _ => .CombinedImageSampler
  | .SampledImage _ _ => .SampledImage
  | .StorageImage _ _ => .StorageImage
  | .InputAttachment _ _ => .InputAttachment

/-- Native `VkDescriptorBufferInfo` record. -/
structure DescriptorBufferInfo where
  buffer : Nat
  offset : Nat
  range : Nat
deriving DecidableEq

/-- Native `VkDescriptorImageInfo` record. -/
structure DescriptorImageInfo where
  sampler : Nat
  imageView : Nat
  imageLayout : Nat
deriving DecidableEq

/-- Native `VkWriteDescriptorSet` record; the two payload pointers are indices
into the buffer-info / image-info arrays (`none` = null). -/
structure WriteDescriptorSet where
  dstSet : Nat
  dstBinding : Nat
  dstArrayElement : Nat
  descriptorCount : Nat
  descriptorType : Nat
  pImageInfo : Option Nat
  pBufferInfo : Option Nat
  pTexelBufferView : Option Nat
deriving DecidableEq

/-- Native `VkDescriptorSetLayoutBinding` record. -/
structure DescriptorSetLayoutBinding where
  binding : Nat
  descriptorType : Nat
  descriptorCount : Nat
  stageFlags : Nat
  pImmutableSamplers : Option Nat
deriving DecidableEq

/-- Trace of native driver invocations issued by the engine. -/
inductive NativeCall where
  | AllocateDescriptorSets (device : Nat) (pool : Nat) (setCount : Nat) (layouts : List Nat)
  | UpdateDescriptorSets (device : Nat) (writeCount : Nat) (writes : List WriteDescriptorSet)
  | FreeDescriptorSets (device : Nat) (pool : Nat) (count : Nat) (sets : List Nat)
  | CreateDescriptorSetLayout (device : Nat) (bindingCount : Nat)
      (bindings : List DescriptorSetLayoutBinding)
  | DestroyDescriptorSetLayout (device : Nat) (layout : Nat)
  | CreatePipelineLayout (device : Nat) (setLayoutCount : Nat) (setLayouts : List Nat)
      (pushConstantRangeCount : Nat)
  | DestroyPipelineLayout (device : Nat) (layout : Nat)
deriving DecidableEq

/-- Out-of-memory error kinds surfaced as recoverable results. -/
inductive OomError where
  | OutOfHostMemory
  | OutOfDeviceMemory
deriving DecidableEq

/-- A schema binding entry, as enumerated by `DescriptorSetDesc::descriptors()`
(binding index, kind, array count, stage mask). -/
structure DescriptorDesc where
  binding : Nat
  ty : DescriptorType
  array_count : Nat
  stages : Nat
deriving DecidableEq

/-- `DescriptorSetLayout`: native layout handle, owning device, and the binding
schema (the opaque description object, modelled by its enumerated entries). -/
structure DescriptorSetLayout where
  layout : Nat
  device : Device
  description : List DescriptorDesc
deriving DecidableEq

/-- `DescriptorSet`: native set handle, owning pool and layout, and the three
append-only resource-tracking collections. -/
structure DescriptorSet where
  set : Nat
  pool : DescriptorPool
  layout : DescriptorSetLayout
  resources_samplers : List Sampler
  resources_image_views : List AbstractImageView
  resources_buffers : List AbstractBuffer
deriving DecidableEq

/-- First pass of `unchecked_write` (lines 114-138): walk the writes, and for
each buffer-kind bind assert the matching buffer capability, push the buffer
onto the tracking collection and emit a `DescriptorBufferInfo`. Returns the
buffers pushed (in order, including those pushed before a failing assert) and
`some` of the emitted records, or `none` if an assert fired. -/
def bufferPass : List DescriptorWrite → List AbstractBuffer × Option (List DescriptorBufferInfo)
  | [] => ([], some [])
  | w :: rest =>
    match w.content with
    | .UniformBuffer buffer offset size =>
      if buffer.usage_uniform_buffer then
        let r := bufferPass rest
        (buffer :: r.1, r.2.map (⟨buffer.handle, offset, size⟩ :: ·))
      else ([], none)
    | .DynamicUniformBuffer buffer offset size =>
      if buffer.usage_uniform_buffer then
        let r := bufferPass rest
        (buffer :: r.1, r.2.map (⟨buffer.handle, offset, size⟩ :: ·))
      else ([], none)
    | .StorageBuffer buffer offset size =>
      if buffer.usage_storage_buffer then
        let r := bufferPass rest
        (buffer :: r.1, r.2.map (⟨buffer.handle, offset, size⟩ :: ·))
      else ([], none)
    | .DynamicStorageBuffer buffer offset size =>
      if buffer.usage_storage_buffer then
        let r := bufferPass rest
        (buffer :: r.1, r.2.map (⟨buffer.handle, offset, size⟩ :: ·))
      else ([], none)
    | _ => bufferPass rest

/-- Second pass of `unchecked_write` (lines 141-190): walk the writes, and for
each image/sampler-kind bind assert the matching image capability (plain
sampler binds carry no image and no check), push the touched sampler and/or
image-view onto the tracking collections and emit a `DescriptorImageInfo`.
Returns (samplers pushed, image-views pushed, `some` records or `none` on an
assert failure). -/
def imagePass :
    List DescriptorWrite → List Sampler × List AbstractImageView × Option (List DescriptorImageInfo)
  | [] => ([], [], some [])
  | w :: rest =>
    match w.content with
    | .Sampler sampler =>
      let r := imagePass rest
      (sampler :: r.1, r.2.1, r.2.2.map (⟨sampler.handle, 0, 0⟩ :: ·))
    | .CombinedImageSampler sampler image layout =>
      if image.usage_sampled then
        let r := imagePass rest
        (sampler :: r.1, image :: r.2.1, r.2.2.map (⟨sampler.handle, image.handle, layout⟩ :: ·))
      else ([], [], none)
    | .StorageImage image layout =>
      if image.usage_storage then
        let r := imagePass rest
        (r.1, image :: r.2.1, r.2.2.map (⟨0, image.handle, layout⟩ :: ·))
      else ([], [], none)
    | .SampledImage image layout =>
      if image.usage_sampled then
        let r := imagePass rest
        (r.1, image :: r.2.1, r.2.2.map (⟨0, image.handle, layout⟩ :: ·))
      else ([], [], none)
    | .InputAttachment image layout =>
      if image.usage_input_attachment then
        let r := imagePass rest
        (r.1, image :: r.2.1, r.2.2.map (⟨0, image.handle, layout⟩ :: ·))
      else ([], [], none)
    | _ => imagePass rest

/-- Whether a bind is one of the four buffer kinds (the third pass's match
partition: everything else is an image/sampler kind). -/
def isBufferBind : DescriptorBind → Bool
  | .UniformBuffer _ _ _ => true
  | .StorageBuffer _ _ _ => true
  | .DynamicUniformBuffer _ _ _ => true
  | .DynamicStorageBuffer _ _ _ => true
  | _ => false

/-- The native write record the third pass builds for one write, given the
current values of the two payload-consumption counters. -/
def mkVkWrite (dstSet : Nat) (w : DescriptorWrite) (next_buffer_desc next_image_desc : Nat) :
    WriteDescriptorSet :=
  if isBufferBind w.content then
    { dstSet := dstSet, dstBinding := w.binding, dstArrayElement := w.array_element,
      descriptorCount := 1, descriptorType := w.content.ty.vk_enum,
      pImageInfo := none, pBufferInfo := some next_buffer_desc, pTexelBufferView := none }
  else
    { dstSet := dstSet, dstBinding := w.binding, dstArrayElement := w.array_element,
      descriptorCount := 1, descriptorType := w.content.ty.vk_enum,
      pImageInfo := some next_image_desc, pBufferInfo := none, pTexelBufferView := none }

/-- Third pass of `unchecked_write` (lines 194-228): re-walk the original write
sequence, consuming the next unconsumed buffer record for a buffer-kind write
and the next unconsumed image record otherwise, and build one native write
record per input write. Returns the records plus the final values of the two
counters. -/
def buildVkWrites (dstSet : Nat) :
    Nat → Nat → List DescriptorWrite → List WriteDescriptorSet × Nat × Nat
  | next_buffer_desc, next_image_desc, [] => ([], next_buffer_desc, next_image_desc)
  | next_buffer_desc, next_image_desc, w :: rest =>
    if isBufferBind w.content then
      let r := buildVkWrites dstSet (next_buffer_desc + 1) next_image_desc rest
      (mkVkWrite dstSet w next_buffer_desc next_image_desc :: r.1, r.2)
    else
      let r := buildVkWrites dstSet next_buffer_desc (next_image_desc + 1) rest
      (mkVkWrite dstSet w next_buffer_desc next_image_desc :: r.1, r.2)

/-- Result of `unchecked_write`: the set state after the operation (or after
the point of an assert failure), the built native record batch (empty if never
built), the native calls issued, and whether the operation completed
(`ok = false` models a panic). -/
structure UncheckedWriteResult where
  state : DescriptorSet
  vk_writes : List WriteDescriptorSet
  calls : List NativeCall
  ok : Bool
deriving DecidableEq

/-- `DescriptorSet::unchecked_write` (lines 101-237): the two payload passes,
the record-building re-walk, the two `debug_assert_eq!` sanity checks, and the
single conditional native update call. -/
def DescriptorSet.unchecked_write (s : DescriptorSet) (write : List DescriptorWrite) :
    UncheckedWriteResult :=
  let bp := bufferPass write
  let s1 := { s with resources_buffers := s.resources_buffers ++ bp.1 }
  match bp.2 with
  | none => ⟨s1, [], [], false⟩
  | some buffer_descriptors =>
    let ip := imagePass write
    let s2 := { s1 with resources_samplers := s1.resources_samplers ++ ip.1,
                        resources_image_views := s1.resources_image_views ++ ip.2.1 }
    match ip.2.2 with
    | none => ⟨s2, [], [], false⟩
    | some image_descriptors =>
      let bw := buildVkWrites s.set 0 0 write
      if bw.2.1 = buffer_descriptors.length ∧ bw.2.2 = image_descriptors.length then
        if bw.1.isEmpty then ⟨s2, bw.1, [], true⟩
        else ⟨s2, bw.1,
              [NativeCall.UpdateDescriptorSets s.pool.device.handle
                 (bw.1.length % 2 ^ 32) bw.1], true⟩
      else ⟨s2, bw.1, [], false⟩

/-- `DescriptorSet::uninitialized` (lines 56-87): panics (`none`) unless pool
and layout share the device; otherwise issues one native allocation call whose
outcome is the `driver` oracle, surfacing failure as a recoverable `OomError`
and success as a set with empty tracking collections. -/
def DescriptorSet.uninitialized (pool : DescriptorPool) (layout : DescriptorSetLayout)
    (driver : Except OomError Nat) :
    Option (Except OomError DescriptorSet × List NativeCall) :=
  if pool.device = layout.device then
    let call := NativeCall.AllocateDescriptorSets pool.device.handle pool.handle 1 [layout.layout]
    match driver with
    | .error e => some (.error e, [call])
    | .ok h =>
      some (.ok { set := h, pool := pool, layout := layout,
                  resources_samplers := [], resources_image_views := [],
                  resources_buffers := [] }, [call])
  else none

/-- `DescriptorSet::new` (lines 40-48): `uninitialized` followed by
`unchecked_write` of the (already schema-decoded) initial write batch; a panic
in either step propagates. -/
def DescriptorSet.new (pool : DescriptorPool) (layout : DescriptorSetLayout)
    (driver : Except OomError Nat) (init : List DescriptorWrite) :
    Option (Except OomError DescriptorSet × List NativeCall) :=
  match DescriptorSet.uninitialized pool layout driver with
  | none => none
  | some (.error e, calls) => some (.error e, calls)
  | some (.ok s, calls) =>
    let r := s.unchecked_write init
    if r.ok then some (.ok r.state, calls ++ r.calls) else none

/-- The native binding-descriptor records `DescriptorSetLayout::new` builds
from the schema's enumerated entries (lines 279-287). -/
def layoutBindings (description : List DescriptorDesc) : List DescriptorSetLayoutBinding :=
  description.map fun desc =>
    { binding := desc.binding, descriptorType := desc.ty.vk_enum,
      descriptorCount := desc.array_count, stageFlags := desc.stages,
      pImmutableSamplers := none }

/-- `DescriptorSetLayout::new` (lines 273-309): build the binding records,
issue a single native create-layout call (outcome given by the oracle), and
return the layout object or the recoverable error. -/
def DescriptorSetLayout.new (device : Device) (description : List DescriptorDesc)
    (driver : Except OomError Nat) :
    Except OomError DescriptorSetLayout × List NativeCall :=
  let bindings := layoutBindings description
  let call := NativeCall.CreateDescriptorSetLayout device.handle
    (bindings.length % 2 ^ 32) bindings
  match driver with
  | .error e => (.error e, [call])
  | .ok h => (.ok { layout := h, device := device, description := description }, [call])

/-- An `AbstractDescriptorSetLayout` trait object: its native handle. -/
structure AbstractDescriptorSetLayout where
  handle : Nat
deriving DecidableEq

/-- `PipelineLayout`: owning device, native handle, and the retained decoded
descriptor-set layouts. -/
structure PipelineLayout where
  device : Device
  layout : Nat
  layouts : List AbstractDescriptorSetLayout
deriving DecidableEq

/-- `PipelineLayout::new` (lines 351-386): map the decoded layouts to their
native identities, issue a single native create-pipeline-layout call with zero
push-constant ranges (outcome given by the oracle), and return the object,
which retains the decoded layouts. -/
def PipelineLayout.new (device : Device) (layouts : List AbstractDescriptorSetLayout)
    (driver : Except OomError Nat) : Except OomError PipelineLayout × List NativeCall :=
  let layouts_ids := layouts.map AbstractDescriptorSetLayout.handle
  let call := NativeCall.CreatePipelineLayout device.handle
    (layouts_ids.length % 2 ^ 32) layouts_ids 0
  match driver with
  | .error e => (.error e, [call])
  | .ok h => (.ok { device := device, layout := h, layouts := layouts }, [call])

/-- `impl Drop for PipelineLayout` (lines 403-411): the native calls the
destructor issues. The source invokes `DestroyDescriptorSetLayout` on the
pipeline-layout handle. -/
def PipelineLayout.drop (self : PipelineLayout) : List NativeCall :=
  [NativeCall.DestroyDescriptorSetLayout self.device.handle self.layout]

/-- Whether a native call is a destroy-pipeline-layout invocation. -/
def NativeCall.isDestroyPipelineLayout : NativeCall → Bool
  | .DestroyPipelineLayout _ _ => true
  | _ => false

/-- The capability a write's bind must assert, per its kind (spec step 2/3):
uniform-buffer capability for uniform kinds, storage-buffer capability for
storage kinds, sampled for combined-image-sampler and sampled-image, storage
for storage-image, input-attachment for input-attachment, nothing for a plain
sampler. -/
def DescriptorBind.checkOk : DescriptorBind → Bool
  | .UniformBuffer buffer _ _ => buffer.usage_uniform_buffer
  | .StorageBuffer buffer _ _ => buffer.usage_storage_buffer
  | .DynamicUniformBuffer buffer _ _ => buffer.usage_uniform_buffer
  | .DynamicStorageBuffer buffer _ _ => buffer.usage_storage_buffer
  | .Sampler _ => true
  | .CombinedImageSampler _ image _ => image.usage_sampled
  | .SampledImage image _ => image.usage_sampled
  | .StorageImage image _ => image.usage_storage
  | .InputAttachment image _ => image.usage_input_attachment

/-- The capability check the buffer pass performs for a bind (trivially true
for non-buffer kinds). -/
def bufferCheckOk (b : DescriptorBind) : Bool :=
  if isBufferBind b then b.checkOk else true

/-- The capability check the image pass performs for a bind (trivially true
for buffer kinds). -/
def imageCheckOk (b : DescriptorBind) : Bool :=
  if isBufferBind b then true else b.checkOk

/-- The buffers a bind references (appended to the buffer-tracking
collection). -/
def DescriptorBind.buffersOf : DescriptorBind → List AbstractBuffer
  | .UniformBuffer buffer _ _ => [buffer]
  | .StorageBuffer buffer _ _ => [buffer]
  | .DynamicUniformBuffer buffer _ _ => [buffer]
  | .DynamicStorageBuffer buffer _ _ => [buffer]
  | _ => []

/-- The samplers a bind references. -/
def DescriptorBind.samplersOf : DescriptorBind → List Vulkano.Sampler
  | .Sampler sampler => [sampler]
  | .CombinedImageSampler sampler _ _ => [sampler]
  | _ => []

/-- The image-views a bind references. -/
def DescriptorBind.viewsOf : DescriptorBind → List AbstractImageView
  | .CombinedImageSampler _ image _ => [image]
  | .SampledImage image _ => [image]
  | .StorageImage image _ => [image]
  | .InputAttachment image _ => [image]
  | _ => []

/-- The buffer-descriptor records a bind contributes in the buffer pass. -/
def DescriptorBind.bufferInfoOf : DescriptorBind → List DescriptorBufferInfo
  | .UniformBuffer buffer offset size => [⟨buffer.handle, offset, size⟩]
  | .StorageBuffer buffer offset size => [⟨buffer.handle, offset, size⟩]
  | .DynamicUniformBuffer buffer offset size => [⟨buffer.handle, offset, size⟩]
  | .DynamicStorageBuffer buffer offset size => [⟨buffer.handle, offset, size⟩]
  | _ => []

/-- The image-descriptor records a bind contributes in the image pass. -/
def DescriptorBind.imageInfoOf : DescriptorBind → List DescriptorImageInfo
  | .Sampler sampler => [⟨sampler.handle, 0, 0⟩]
  | .CombinedImageSampler sampler image layout => [⟨sampler.handle, image.handle, layout⟩]
  | .SampledImage image layout => [⟨0, image.handle, layout⟩]
  | .StorageImage image layout => [⟨0, image.handle, layout⟩]
  | .InputAttachment image layout => [⟨0, image.handle, layout⟩]
  | _ => []

/-- Applying a sequence of write batches to a set, keeping the state. -/
def applyWrites (s : DescriptorSet) (batches : List (List DescriptorWrite)) : DescriptorSet :=
  batches.foldl (fun st ws => (st.unchecked_write ws).state) s

lemma all_and_split {α : Type} (l : List α) (p q : α → Bool) :
    (l.all fun a => p a && q a) = (l.all p && l.all q) := by
  induction l with
  | nil => simp
  | cons a t ih =>
    simp only [List.all_cons, ih]
    cases p a <;> cases q a <;> simp

lemma checkOk_split (b : DescriptorBind) :
    b.checkOk = (bufferCheckOk b && imageCheckOk b) := by
  cases b <;>
    simp [DescriptorBind.checkOk, bufferCheckOk, imageCheckOk, isBufferBind]

lemma bufferPass_of_all (ws : List DescriptorWrite)
    (hb : (ws.all fun w => bufferCheckOk w.content) = true) :
    bufferPass ws = (ws.flatMap fun w => w.content.buffersOf,
      some (ws.flatMap fun w => w.content.bufferInfoOf)) := by
  induction ws with
  | nil => simp [bufferPass]
  | cons w rest ih =>
    rw [List.all_cons, Bool.and_eq_true] at hb
    obtain ⟨h1, h2⟩ := hb
    have ih' := ih h2
    obtain ⟨bi, ae, c⟩ := w
    simp only [bufferCheckOk, isBufferBind, DescriptorBind.checkOk] at h1
    cases c <;>
      simp_all [bufferPass, DescriptorBind.buffersOf, DescriptorBind.bufferInfoOf]

lemma bufferPass_none_of_not_all (ws : List DescriptorWrite)
    (hb : (ws.all fun w => bufferCheckOk w.content) = false) :
    (bufferPass ws).2 = none := by
  induction ws with
  | nil => simp at hb
  | cons w rest ih =>
    rw [List.all_cons, Bool.and_eq_false_iff] at hb
    rcases hb with hb | hb
    · obtain ⟨bi, ae, c⟩ := w
      cases c <;> simp_all [bufferPass, bufferCheckOk, isBufferBind, DescriptorBind.checkOk]
    · have h2 := ih hb
      obtain ⟨bi, ae, c⟩ := w
      cases c <;> simp [bufferPass, h2] <;> split <;> simp [h2]

lemma imagePass_of_all (ws : List DescriptorWrite)
    (hi : (ws.all fun w => imageCheckOk w.content) = true) :
    imagePass ws = (ws.flatMap fun w => w.content.samplersOf,
      ws.flatMap fun w => w.content.viewsOf,
      some (ws.flatMap fun w => w.content.imageInfoOf)) := by
  induction ws with
  | nil => simp [imagePass]
  | cons w rest ih =>
    rw [List.all_cons, Bool.and_eq_true] at hi
    obtain ⟨h1, h2⟩ := hi
    have ih' := ih h2
    obtain ⟨bi, ae, c⟩ := w
    simp only [imageCheckOk, isBufferBind, DescriptorBind.checkOk] at h1
    cases c <;>
      simp_all [imagePass, DescriptorBind.samplersOf, DescriptorBind.viewsOf,
        DescriptorBind.imageInfoOf]

lemma imagePass_none_of_not_all (ws : List DescriptorWrite)
    (hi : (ws.all fun w => imageCheckOk w.content) = false) :
    (imagePass ws).2.2 = none := by
  induction ws with
  | nil => simp at hi
  | cons w rest ih =>
    rw [List.all_cons, Bool.and_eq_false_iff] at hi
    rcases hi with hi | hi
    · obtain ⟨bi, ae, c⟩ := w
      cases c <;> simp_all [imagePass, imageCheckOk, isBufferBind, DescriptorBind.checkOk]
    · have h2 := ih hi
      obtain ⟨bi, ae, c⟩ := w
      cases c <;> simp [imagePass, h2] <;> split <;> simp [h2]

lemma buildVkWrites_length (dstSet : Nat) (ws : List DescriptorWrite) :
    ∀ nb ni, (buildVkWrites dstSet nb ni ws).1.length = ws.length := by
  induction ws with
  | nil => intro nb ni; rfl
  | cons w rest ih =>
    intro nb ni
    by_cases hc : isBufferBind w.content <;>
      simp [buildVkWrites, hc, ih]

lemma buildVkWrites_counts (dstSet : Nat) (ws : List DescriptorWrite) :
    ∀ nb ni, (buildVkWrites dstSet nb ni ws).2.1
        = nb + (ws.countP fun w => isBufferBind w.content) ∧
      (buildVkWrites dstSet nb ni ws).2.2
        = ni + (ws.countP fun w => !(isBufferBind w.content)) := by
  induction ws with
  | nil => intro nb ni; simp [buildVkWrites]
  | cons w rest ih =>
    intro nb ni
    by_cases hc : isBufferBind w.content <;>
      simp [buildVkWrites, hc, ih, List.countP_cons] <;>
      omega

lemma buildVkWrites_getElem (dstSet : Nat) (ws : List DescriptorWrite) :
    ∀ nb ni i, (hi : i < ws.length) → (hv : i < (buildVkWrites dstSet nb ni ws).1.length) →
      (buildVkWrites dstSet nb ni ws).1[i] =
        mkVkWrite dstSet ws[i]
          (nb + ((ws.take i).countP fun w => isBufferBind w.content))
          (ni + ((ws.take i).countP fun w => !(isBufferBind w.content))) := by
  induction ws with
  | nil => intro nb ni i hi hv; exact absurd hi (by simp)
  | cons w rest ih =>
    intro nb ni i hi hv
    cases i with
    | zero =>
      by_cases hc : isBufferBind w.content <;>
        simp [buildVkWrites, hc]
    | succ j =>
      have hj : j < rest.length := by
        simpa using Nat.lt_of_succ_lt_succ hi
      by_cases hc : isBufferBind w.content
      · have hv' : j < (buildVkWrites dstSet (nb + 1) ni rest).1.length := by
          rw [buildVkWrites_length]; exact hj
        have step := ih (nb + 1) ni j hj hv'
        simp [buildVkWrites, hc, step, List.take_succ_cons, List.countP_cons]
        simp [Nat.add_assoc, Nat.add_comm, Nat.add_left_comm]
      · have hv' : j < (buildVkWrites dstSet nb (ni + 1) rest).1.length := by
          rw [buildVkWrites_length]; exact hj
        have step := ih nb (ni + 1) j hj hv'
        simp [buildVkWrites, hc, step, List.take_succ_cons, List.countP_cons]
        simp [Nat.add_assoc, Nat.add_comm, Nat.add_left_comm]

lemma mkVkWrite_fields (dstSet : Nat) (w : DescriptorWrite) (nb ni : Nat) :
    (mkVkWrite dstSet w nb ni).dstSet = dstSet ∧
    (mkVkWrite dstSet w nb ni).dstBinding = w.binding ∧
    (mkVkWrite dstSet w nb ni).dstArrayElement = w.array_element ∧
    (mkVkWrite dstSet w nb ni).descriptorCount = 1 ∧
    (mkVkWrite dstSet w nb ni).descriptorType = w.content.ty.vk_enum ∧
    (mkVkWrite dstSet w nb ni).pTexelBufferView = none := by
  by_cases hc : isBufferBind w.content <;> simp [mkVkWrite, hc]

lemma bufferInfoOf_length (ws : List DescriptorWrite) :
    (ws.flatMap fun w => w.content.bufferInfoOf).length
      = ws.countP fun w => isBufferBind w.content := by
  induction ws with
  | nil => simp
  | cons w rest ih =>
    obtain ⟨bi, ae, c⟩ := w
    rw [List.flatMap_cons, List.length_append, ih, List.countP_cons]
    cases c <;>
      simp [DescriptorBind.bufferInfoOf, isBufferBind] <;> omega

lemma imageInfoOf_length (ws : List DescriptorWrite) :
    (ws.flatMap fun w => w.content.imageInfoOf).length
      = ws.countP fun w => !(isBufferBind w.content) := by
  induction ws with
  | nil => simp
  | cons w rest ih =>
    obtain ⟨bi, ae, c⟩ := w
    rw [List.flatMap_cons, List.length_append, ih, List.countP_cons]
    cases c <;>
      simp [DescriptorBind.imageInfoOf, isBufferBind] <;> omega

lemma all_checkOk_split (ws : List DescriptorWrite) :
    (ws.all fun w => w.content.checkOk)
      = ((ws.all fun w => bufferCheckOk w.content)
          && (ws.all fun w => imageCheckOk w.content)) := by
  have h1 : (ws.all fun w => w.content.checkOk)
      = (ws.all fun w => bufferCheckOk w.content && imageCheckOk w.content) :=
    congrArg ws.all (funext fun w => checkOk_split w.content)
  rw [h1]
  exact all_and_split ws (fun w => bufferCheckOk w.content) fun w => imageCheckOk w.content

lemma length_eq_isEmpty {α β : Type} (l1 : List α) (l2 : List β)
    (h : l1.length = l2.length) : l1.isEmpty = l2.isEmpty := by
  cases l1 <;> cases l2 <;> simp_all

lemma unchecked_write_of_all (s : DescriptorSet) (ws : List DescriptorWrite)
    (h : (ws.all fun w => w.content.checkOk) = true) :
    s.unchecked_write ws =
      ⟨{ s with
           resources_buffers := s.resources_buffers ++ ws.flatMap fun w => w.content.buffersOf,
           resources_samplers := s.resources_samplers ++ ws.flatMap fun w => w.content.samplersOf,
           resources_image_views :=
             s.resources_image_views ++ ws.flatMap fun w => w.content.viewsOf },
        (buildVkWrites s.set 0 0 ws).1,
        if ws.isEmpty then []
        else [NativeCall.UpdateDescriptorSets s.pool.device.handle
                ((buildVkWrites s.set 0 0 ws).1.length % 2 ^ 32) (buildVkWrites s.set 0 0 ws).1],
        true⟩ := by
  rw [all_checkOk_split, Bool.and_eq_true] at h
  obtain ⟨hb, hi⟩ := h
  have hbp := bufferPass_of_all ws hb
  have hip := imagePass_of_all ws hi
  have hdb : (buildVkWrites s.set 0 0 ws).2.1
      = (ws.flatMap fun w => w.content.bufferInfoOf).length := by
    rw [bufferInfoOf_length]
    simpa using (buildVkWrites_counts s.set ws 0 0).1
  have hdi : (buildVkWrites s.set 0 0 ws).2.2
      = (ws.flatMap fun w => w.content.imageInfoOf).length := by
    rw [imageInfoOf_length]
    simpa using (buildVkWrites_counts s.set ws 0 0).2
  have hemp : (buildVkWrites s.set 0 0 ws).1.isEmpty = ws.isEmpty :=
    length_eq_isEmpty _ _ (buildVkWrites_length s.set ws 0 0)
  simp only [DescriptorSet.unchecked_write, hbp, hip]
  simp only [hdb, hdi, hemp, and_self, if_true]
  cases he : ws.isEmpty <;> simp [he]

lemma unchecked_write_of_buffer_abort (s : DescriptorSet) (ws : List DescriptorWrite)
    (hb : (ws.all fun w => bufferCheckOk w.content) = false) :
    s.unchecked_write ws =
      ⟨{ s with resources_buffers := s.resources_buffers ++ (bufferPass ws).1 },
        [], [], false⟩ := by
  have h2 := bufferPass_none_of_not_all ws hb
  simp only [DescriptorSet.unchecked_write, h2]

lemma unchecked_write_of_image_abort (s : DescriptorSet) (ws : List DescriptorWrite)
    (hb : (ws.all fun w => bufferCheckOk w.content) = true)
    (hi : (ws.all fun w => imageCheckOk w.content) = false) :
    s.unchecked_write ws =
      ⟨{ s with
           resources_buffers := s.resources_buffers ++ (ws.flatMap fun w => w.content.buffersOf),
           resources_samplers := s.resources_samplers ++ (imagePass ws).1,
           resources_image_views := s.resources_image_views ++ (imagePass ws).2.1 },
        [], [], false⟩ := by
  have hbp := bufferPass_of_all ws hb
  have h2 := imagePass_none_of_not_all ws hi
  simp only [DescriptorSet.unchecked_write, hbp, h2]

/-! Concrete sample objects used by the witness theorems. -/

def devA : Device := ⟨1⟩

def devB : Device := ⟨2⟩

def poolA : DescriptorPool := ⟨devA, 2⟩

def poolB : DescriptorPool := ⟨devB, 4⟩

def layoutA : DescriptorSetLayout := ⟨3, devA, []⟩

def set0 : DescriptorSet := ⟨7, poolA, layoutA, [], [], []⟩

def bufGood : AbstractBuffer := ⟨10, true, true⟩

def bufNoUniform : AbstractBuffer := ⟨11, false, true⟩

def samp0 : Sampler := ⟨20⟩

def viewSampled : AbstractImageView := ⟨30, true, false, false⟩

def viewPlain : AbstractImageView := ⟨31, false, false, false⟩

def wUni : DescriptorWrite := ⟨0, 0, .UniformBuffer bufGood 0 64⟩

def wBad : DescriptorWrite := ⟨1, 0, .UniformBuffer bufNoUniform 0 64⟩

def wImg : DescriptorWrite := ⟨1, 0, .CombinedImageSampler samp0 viewSampled 5⟩

def wImgBad : DescriptorWrite := ⟨2, 0, .StorageImage viewPlain 5⟩

def descsA : List DescriptorDesc := [⟨0, .UniformBuffer, 1, 3⟩, ⟨1, .CombinedImageSampler, 1, 3⟩]

def absLayouts : List AbstractDescriptorSetLayout := [⟨5⟩, ⟨6⟩]

/-- Claim C1: every buffer-kind write asserts the capability matching its kind
(uniform-buffer capability for uniform and dynamic-uniform kinds, storage-buffer
capability for storage and dynamic-storage kinds), every image-carrying write
asserts the matching image capability (sampled for combined-image-sampler and
sampled-image, storage for storage-image, input-attachment for
input-attachment), a plain sampler write performs no image-usage check, and the
operation completes exactly when all these checks pass; when any check fails it
aborts and issues no native update-descriptor-sets call. -/
theorem unchecked_write_capability_asserts (s : DescriptorSet) (ws : List DescriptorWrite) :
    ((s.unchecked_write ws).ok = (ws.all fun w => w.content.checkOk)) ∧
    ((ws.all fun w => w.content.checkOk) = false → (s.unchecked_write ws).calls = []) := by
  by_cases hall : (ws.all fun w => w.content.checkOk) = true
  · rw [hall, unchecked_write_of_all s ws hall]
    simp
  · have hall' : (ws.all fun w => w.content.checkOk) = false := by
      simpa using hall
    rw [hall']
    by_cases hb : (ws.all fun w => bufferCheckOk w.content) = true
    · have hi : (ws.all fun w => imageCheckOk w.content) = false := by
        have hs := all_checkOk_split ws
        rw [hall', hb] at hs
        simpa using hs.symm
      rw [unchecked_write_of_image_abort s ws hb hi]
      simp
    · have hb' : (ws.all fun w => bufferCheckOk w.content) = false := by simpa using hb
      rw [unchecked_write_of_buffer_abort s ws hb']
      simp

/-- Witness for C1 at a concrete failing input: a uniform-buffer write whose
buffer lacks the uniform-buffer capability aborts without a native call. -/
theorem unchecked_write_capability_asserts_witness :
    (set0.unchecked_write [wBad]).ok = false ∧ (set0.unchecked_write [wBad]).calls = [] := by
  have h := unchecked_write_capability_asserts set0 [wBad]
  have hf : ([wBad].all fun w => w.content.checkOk) = false := by decide
  exact ⟨h.1.trans hf, h.2 hf⟩

/-- Claim C2: for a write sequence that passes the capability asserts (only
then is the batch built at all), `unchecked_write` builds exactly one native
write record per input write, in input order, the i-th record's
destination-binding and destination-array-element fields equal the i-th input
write's binding and array_element, its count field is 1, its descriptor-kind
enum is the kind of that write's DescriptorBind, and its texel-buffer-view
pointer is null. -/
theorem unchecked_write_one_record_per_write (s : DescriptorSet) (ws : List DescriptorWrite)
    (h : (ws.all fun w => w.content.checkOk) = true) :
    (s.unchecked_write ws).vk_writes.length = ws.length ∧
    ∀ i, (hi : i < ws.length) → (hv : i < (s.unchecked_write ws).vk_writes.length) →
      (s.unchecked_write ws).vk_writes[i].dstBinding = ws[i].binding ∧
      (s.unchecked_write ws).vk_writes[i].dstArrayElement = ws[i].array_element ∧
      (s.unchecked_write ws).vk_writes[i].descriptorCount = 1 ∧
      (s.unchecked_write ws).vk_writes[i].descriptorType = ws[i].content.ty.vk_enum ∧
      (s.unchecked_write ws).vk_writes[i].pTexelBufferView = none := by
  simp only [unchecked_write_of_all s ws h]
  refine ⟨buildVkWrites_length s.set ws 0 0, ?_⟩
  intro i hi hv
  have hv' : i < (buildVkWrites s.set 0 0 ws).1.length := by
    rw [buildVkWrites_length]; exact hi
  rw [buildVkWrites_getElem s.set ws 0 0 i hi hv']
  have hf := mkVkWrite_fields s.set ws[i]
    (0 + ((ws.take i).countP fun w => isBufferBind w.content))
    (0 + ((ws.take i).countP fun w => !(isBufferBind w.content)))
  exact ⟨hf.2.1, hf.2.2.1, hf.2.2.2.1, hf.2.2.2.2.1, hf.2.2.2.2.2⟩

/-- Witness for C2 at a concrete input: two valid writes produce exactly two
native records. -/
theorem unchecked_write_one_record_per_write_witness :
    (set0.unchecked_write [wUni, wImg]).vk_writes.length = 2 := by
  have h := unchecked_write_one_record_per_write set0 [wUni, wImg] (by decide)
  simpa using h.1

/-- Claim C3: in the batch built by `unchecked_write` (for a sequence passing
the asserts), a buffer-kind write's record points at the next unconsumed
buffer-descriptor record with a null image-info pointer, an image/sampler-kind
write's record points at the next unconsumed image-descriptor record with a
null buffer-info pointer, both consumed in original write order; the final
consumption counters equal the lengths of the produced buffer and image record
lists, so every produced record is consumed exactly once and the internal
sanity check never fires (the operation completes). -/
theorem unchecked_write_payload_consumption (s : DescriptorSet) (ws : List DescriptorWrite)
    (h : (ws.all fun w => w.content.checkOk) = true) :
    (s.unchecked_write ws).ok = true ∧
    (∀ bi, (bufferPass ws).2 = some bi → (buildVkWrites s.set 0 0 ws).2.1 = bi.length) ∧
    (∀ ii, (imagePass ws).2.2 = some ii → (buildVkWrites s.set 0 0 ws).2.2 = ii.length) ∧
    ∀ i, (hi : i < ws.length) → (hv : i < (s.unchecked_write ws).vk_writes.length) →
      (isBufferBind ws[i].content = true →
        (s.unchecked_write ws).vk_writes[i].pBufferInfo
            = some ((ws.take i).countP fun w => isBufferBind w.content) ∧
        (s.unchecked_write ws).vk_writes[i].pImageInfo = none) ∧
      (isBufferBind ws[i].content = false →
        (s.unchecked_write ws).vk_writes[i].pImageInfo
            = some ((ws.take i).countP fun w => !(isBufferBind w.content)) ∧
        (s.unchecked_write ws).vk_writes[i].pBufferInfo = none) := by
  have hsplit := h
  rw [all_checkOk_split, Bool.and_eq_true] at hsplit
  obtain ⟨hb, hi0⟩ := hsplit
  refine ⟨?_, ?_, ?_, ?_⟩
  · simp only [unchecked_write_of_all s ws h]
  · intro bi hbi
    simp only [bufferPass_of_all ws hb, Option.some.injEq] at hbi
    rw [← hbi, bufferInfoOf_length]
    simpa using (buildVkWrites_counts s.set ws 0 0).1
  · intro ii hii
    simp only [imagePass_of_all ws hi0, Option.some.injEq] at hii
    rw [← hii, imageInfoOf_length]
    simpa using (buildVkWrites_counts s.set ws 0 0).2
  · intro i hi hv
    have hv' : i < (buildVkWrites s.set 0 0 ws).1.length := by
      rw [buildVkWrites_length]; exact hi
    simp only [unchecked_write_of_all s ws h]
    rw [buildVkWrites_getElem s.set ws 0 0 i hi hv']
    constructor
    · intro hbk
      simp [mkVkWrite, hbk]
    · intro hbk
      simp [mkVkWrite, hbk]

/-- Witness for C3 at a concrete input: a valid mixed batch completes, so the
sanity check did not fire. -/
theorem unchecked_write_payload_consumption_witness :
    (set0.unchecked_write [wUni, wImg]).ok = true :=
  (unchecked_write_payload_consumption set0 [wUni, wImg] (by decide)).1

/-- Claim C4: for a write sequence passing the asserts, when the built batch
is non-empty `unchecked_write` issues exactly one native
update-descriptor-sets call carrying the full batch; for the empty input
sequence it builds an empty batch, issues zero native calls, and leaves the
set (including its three resource-tracking collections) unchanged. -/
theorem unchecked_write_single_update_call (s : DescriptorSet) (ws : List DescriptorWrite)
    (h : (ws.all fun w => w.content.checkOk) = true) :
    ((s.unchecked_write ws).vk_writes ≠ [] →
      (s.unchecked_write ws).calls
        = [NativeCall.UpdateDescriptorSets s.pool.device.handle
             ((s.unchecked_write ws).vk_writes.length % 2 ^ 32)
             (s.unchecked_write ws).vk_writes]) ∧
    (ws = [] →
      (s.unchecked_write ws).vk_writes = [] ∧ (s.unchecked_write ws).calls = [] ∧
      (s.unchecked_write ws).state = s) := by
  simp only [unchecked_write_of_all s ws h]
  constructor
  · intro hne
    have he : ws.isEmpty = false := by
      rw [← length_eq_isEmpty _ _ (buildVkWrites_length s.set ws 0 0)]
      simpa [List.isEmpty_eq_false] using hne
    simp [he]
  · rintro rfl
    simp [buildVkWrites]

/-- Witness for C4 at the concrete empty input: no native call, state
unchanged. -/
theorem unchecked_write_single_update_call_witness :
    (set0.unchecked_write []).vk_writes = [] ∧ (set0.unchecked_write []).calls = [] ∧
    (set0.unchecked_write []).state = set0 :=
  (unchecked_write_single_update_call set0 [] (by decide)).2 rfl

/-- Claim C5: after any sequence of write batches that pass the asserts, the
three tracking collections hold exactly the resources referenced by the
applied writes, one entry per reference occurrence, appended in processing
order after the previous contents — the previous contents stay as a prefix, so
no entry is ever removed and overwritten bindings' references remain. -/
theorem descriptor_set_tracking_append_only (s : DescriptorSet)
    (batches : List (List DescriptorWrite))
    (h : (batches.all fun ws => ws.all fun w => w.content.checkOk) = true) :
    (applyWrites s batches).resources_buffers
        = s.resources_buffers
          ++ batches.flatMap (fun ws => ws.flatMap fun w => w.content.buffersOf) ∧
    (applyWrites s batches).resources_samplers
        = s.resources_samplers
          ++ batches.flatMap (fun ws => ws.flatMap fun w => w.content.samplersOf) ∧
    (applyWrites s batches).resources_image_views
        = s.resources_image_views
          ++ batches.flatMap (fun ws => ws.flatMap fun w => w.content.viewsOf) := by
  induction batches generalizing s with
  | nil => simp [applyWrites]
  | cons ws rest ih =>
    rw [List.all_cons, Bool.and_eq_true] at h
    obtain ⟨h1, h2⟩ := h
    have hstep := unchecked_write_of_all s ws h1
    have hrec := ih ((s.unchecked_write ws).state) h2
    refine ⟨?_, ?_, ?_⟩
    · simp only [applyWrites, List.foldl_cons] at hrec ⊢
      rw [hrec.1]
      simp only [hstep]
      simp [List.flatMap_cons, List.append_assoc]
    · simp only [applyWrites, List.foldl_cons] at hrec ⊢
      rw [hrec.2.1]
      simp only [hstep]
      simp [List.flatMap_cons, List.append_assoc]
    · simp only [applyWrites, List.foldl_cons] at hrec ⊢
      rw [hrec.2.2]
      simp only [hstep]
      simp [List.flatMap_cons, List.append_assoc]

/-- Witness for C5 at a concrete input: two applied batches append exactly the
referenced buffers. -/
theorem descriptor_set_tracking_append_only_witness :
    (applyWrites set0 [[wUni], [wImg]]).resources_buffers
      = set0.resources_buffers
        ++ [[wUni], [wImg]].flatMap (fun ws => ws.flatMap fun w => w.content.buffersOf) :=
  (descriptor_set_tracking_append_only set0 [[wUni], [wImg]] (by decide)).1

/-- Claim C6: descriptor-set allocation panics when the pool and the layout
were not created from the same device (and `new`, which calls it, panics too);
with matching devices a driver failure is surfaced as a recoverable
out-of-memory result, and on success the returned set has all three
resource-tracking collections empty. -/
theorem descriptor_set_allocation_contract (pool : DescriptorPool)
    (layout : DescriptorSetLayout) (driver : Except OomError Nat) :
    (pool.device ≠ layout.device →
      DescriptorSet.uninitialized pool layout driver = none ∧
      ∀ init, DescriptorSet.new pool layout driver init = none) ∧
    (pool.device = layout.device →
      (∀ e, driver = .error e →
        DescriptorSet.uninitialized pool layout driver
          = some (.error e,
              [NativeCall.AllocateDescriptorSets pool.device.handle pool.handle 1
                 [layout.layout]])) ∧
      (∀ hdl, driver = .ok hdl →
        DescriptorSet.uninitialized pool layout driver
          = some (.ok ⟨hdl, pool, layout, [], [], []⟩,
              [NativeCall.AllocateDescriptorSets pool.device.handle pool.handle 1
                 [layout.layout]]))) := by
  constructor
  · intro hne
    have hun : DescriptorSet.uninitialized pool layout driver = none := by
      simp [DescriptorSet.uninitialized, hne]
    exact ⟨hun, fun init => by simp [DescriptorSet.new, hun]⟩
  · intro heq
    constructor
    · rintro e rfl
      simp [DescriptorSet.uninitialized, heq]
    · rintro hdl rfl
      simp [DescriptorSet.uninitialized, heq]

/-- Witness for C6 at concrete inputs: mismatched devices panic; matching
devices succeed with empty tracking collections. -/
theorem descriptor_set_allocation_contract_witness :
    DescriptorSet.uninitialized poolB layoutA (.ok 7) = none ∧
    DescriptorSet.uninitialized poolA layoutA (.ok 7)
      = some (.ok ⟨7, poolA, layoutA, [], [], []⟩,
          [NativeCall.AllocateDescriptorSets poolA.device.handle poolA.handle 1
             [layoutA.layout]]) := by
  constructor
  · exact ((descriptor_set_allocation_contract poolB layoutA (.ok 7)).1 (by decide)).1
  · exact ((descriptor_set_allocation_contract poolA layoutA (.ok 7)).2 (by decide)).2 7 rfl

/-- Claim C7: layout creation builds exactly one native binding-descriptor
record per schema entry, in enumeration order, preserving binding index, kind,
array count and stage mask with a null immutable-samplers pointer, and issues
a single native create-layout call; the binding indices passed to the driver
exactly match the schema's declared bindings. -/
theorem descriptor_set_layout_creation_contract (device : Device)
    (description : List DescriptorDesc) (driver : Except OomError Nat) :
    (DescriptorSetLayout.new device description driver).2
        = [NativeCall.CreateDescriptorSetLayout device.handle
             ((layoutBindings description).length % 2 ^ 32) (layoutBindings description)] ∧
    (layoutBindings description).length = description.length ∧
    (∀ i, (hi : i < description.length) → (hb : i < (layoutBindings description).length) →
      (layoutBindings description)[i].binding = description[i].binding ∧
      (layoutBindings description)[i].descriptorType = description[i].ty.vk_enum ∧
      (layoutBindings description)[i].descriptorCount = description[i].array_count ∧
      (layoutBindings description)[i].stageFlags = description[i].stages ∧
      (layoutBindings description)[i].pImmutableSamplers = none) ∧
    (layoutBindings description).map DescriptorSetLayoutBinding.binding
        = description.map DescriptorDesc.binding := by
  refine ⟨?_, ?_, ?_, ?_⟩
  · cases driver <;> rfl
  · simp [layoutBindings]
  · intro i hi hb
    simp [layoutBindings]
  · simp [layoutBindings, List.map_map, Function.comp]

/-- Witness for C7 at a concrete schema: the single native call and the
binding-index preservation. -/
theorem descriptor_set_layout_creation_contract_witness :
    (DescriptorSetLayout.new devA descsA (.ok 3)).2
      = [NativeCall.CreateDescriptorSetLayout devA.handle
           ((layoutBindings descsA).length % 2 ^ 32) (layoutBindings descsA)] ∧
    (layoutBindings descsA).map DescriptorSetLayoutBinding.binding
      = descsA.map DescriptorDesc.binding := by
  have h := descriptor_set_layout_creation_contract devA descsA (.ok 3)
  exact ⟨h.1, h.2.2.2⟩

/-- Claim C8: pipeline-layout creation issues a single native
create-pipeline-layout call whose handle array contains, in order, one native
identity per decoded DescriptorSetLayout, with zero push-constant ranges, and
the returned object retains every decoded layout. -/
theorem pipeline_layout_creation_contract (device : Device)
    (layouts : List AbstractDescriptorSetLayout) (driver : Except OomError Nat) :
    (PipelineLayout.new device layouts driver).2
        = [NativeCall.CreatePipelineLayout device.handle
             ((layouts.map AbstractDescriptorSetLayout.handle).length % 2 ^ 32)
             (layouts.map AbstractDescriptorSetLayout.handle) 0] ∧
    ∀ pl, (PipelineLayout.new device layouts driver).1 = .ok pl →
      pl.device = device ∧ pl.layouts = layouts := by
  constructor
  · cases driver <;> rfl
  · intro pl hpl
    cases driver with
    | error e => simp [PipelineLayout.new] at hpl
    | ok hdl =>
      simp only [PipelineLayout.new, Except.ok.injEq] at hpl
      subst hpl
      exact ⟨rfl, rfl⟩

/-- Witness for C8 at concrete inputs: the single native call, and the
returned object retains the decoded layouts. -/
theorem pipeline_layout_creation_contract_witness :
    (PipelineLayout.new devA absLayouts (.ok 9)).2
      = [NativeCall.CreatePipelineLayout devA.handle
           ((absLayouts.map AbstractDescriptorSetLayout.handle).length % 2 ^ 32)
           (absLayouts.map AbstractDescriptorSetLayout.handle) 0] ∧
    (⟨devA, 9, absLayouts⟩ : PipelineLayout).layouts = absLayouts := by
  have h := pipeline_layout_creation_contract devA absLayouts (.ok 9)
  exact ⟨h.1, (h.2 ⟨devA, 9, absLayouts⟩ rfl).2⟩

/-- Claim C9: the update batch is not applied atomically with respect to
assertion failure — the whole buffer group is processed (its buffers appended
to the tracking collection) before any image/sampler-kind assertion runs, so
when an image-kind assertion fails the buffer-group tracking mutations remain
in place while the operation aborts and no native update call is issued. -/
theorem unchecked_write_best_effort (s : DescriptorSet) (ws : List DescriptorWrite)
    (hb : (ws.all fun w => bufferCheckOk w.content) = true)
    (hfail : (ws.all fun w => w.content.checkOk) = false) :
    (s.unchecked_write ws).ok = false ∧
    (s.unchecked_write ws).calls = [] ∧
    (s.unchecked_write ws).state.resources_buffers
        = s.resources_buffers ++ ws.flatMap fun w => w.content.buffersOf := by
  have hi : (ws.all fun w => imageCheckOk w.content) = false := by
    have hs := all_checkOk_split ws
    rw [hfail, hb] at hs
    simpa using hs.symm
  simp only [unchecked_write_of_image_abort s ws hb hi]
  exact ⟨trivial, trivial, trivial⟩

/-- Witness for C9 at a concrete input: a valid buffer write followed by a
storage-image write on an image lacking the storage capability — the buffer is
still appended while the operation aborts with no native call. -/
theorem unchecked_write_best_effort_witness :
    (set0.unchecked_write [wUni, wImgBad]).ok = false ∧
    (set0.unchecked_write [wUni, wImgBad]).calls = [] ∧
    (set0.unchecked_write [wUni, wImgBad]).state.resources_buffers
        = set0.resources_buffers ++ [wUni, wImgBad].flatMap fun w => w.content.buffersOf :=
  unchecked_write_best_effort set0 [wUni, wImgBad] (by decide) (by decide)

/-- Claim C10: on drop, a PipelineLayout issues exactly one native destroy
invocation for its own handle, and it goes through the device table's
destroy-descriptor-set-layout entry point, not a destroy-pipeline-layout
entry point. -/
theorem pipeline_layout_drop_entry_point (p : PipelineLayout) :
    p.drop = [NativeCall.DestroyDescriptorSetLayout p.device.handle p.layout] ∧
    p.drop.length = 1 ∧
    p.drop.countP NativeCall.isDestroyPipelineLayout = 0 := by
  refine ⟨rfl, rfl, ?_⟩
  simp [PipelineLayout.drop, NativeCall.isDestroyPipelineLayout, List.countP_cons]

end Vulkano
